import Mathlib

/-!
Shallow embedding of the Crypto-BOT historical-data / news caching pipeline
(`app/services/data_service.py`, `app/services/analysis_service.py`,
`app/services/db_service.py`).

Modelling conventions:
* Machine floats are idealised as `ℚ`; a pandas `NaN` cell is `Option.none`.
  (`ℚ` division by zero is `0`, where Python float division yields `inf`;
  no property below exercises that corner.)
* Timestamps (`datetime.now()`, capture timestamps) are seconds since epoch
  as `ℚ`; `datetime.now() - t` becomes subtraction.
* External effects (the HTTP API, MongoDB reads, the CSV mirror files) are
  an explicit environment value passed to each function.  MongoDB reads are
  `Option` (the `db_service` getters catch their own exceptions and return
  `None` both on absence and on store failure).  An exception raised inside
  a `try` block of the service code is modelled by the `ApiOutcome.error`
  constructor of the environment's API field.
* DataFrames are date-sorted lists of rows; the date index itself carries no
  information the verified properties need beyond the ordering.
-/

/-- One raw OHLCV row of the historical DataFrame: the numeric columns
`open`, `high`, `low`, `close`, `volume` after `pd.to_numeric`
(`open_` stands for the Python column name `open`). -/
structure Row where
  open_ : ℚ
  high : ℚ
  low : ℚ
  close : ℚ
  volume : ℚ
deriving DecidableEq, Repr

instance : Inhabited Row := ⟨⟨0, 0, 0, 0, 0⟩⟩

/-- One enriched row: the raw columns plus the indicator columns added by
`calculate_technical_indicators`.  Indicator cells are `Option ℚ`
(`none` = NaN during the warm-up window). -/
structure ERow where
  open_ : ℚ
  high : ℚ
  low : ℚ
  close : ℚ
  volume : ℚ
  rsi : Option ℚ
  macd : Option ℚ
  macd_signal_col : Option ℚ
  macd_hist : Option ℚ
  ma20 : Option ℚ
  ma50 : Option ℚ
  ma200 : Option ℚ
  bb_upper : Option ℚ
  bb_middle : Option ℚ
  bb_lower : Option ℚ
deriving DecidableEq, Repr

instance : Inhabited ERow :=
  ⟨⟨0, 0, 0, 0, 0, none, none, none, none, none, none, none, none, none, none⟩⟩

/-- A document of the raw `historical_data` collection as read back by
`get_latest_historical_data`: its `data` mapping (here the date-sorted rows)
and its `timestamp` stamped at save time. -/
structure HistRecord where
  data : List Row
  timestamp : ℚ
deriving DecidableEq, Repr

/-- A document of the `processed_data` collection as read back by
`get_latest_processed_data`: the enriched table and the save timestamp. -/
structure ProcRecord where
  data : List ERow
  timestamp : ℚ
deriving DecidableEq, Repr

/-- Outcome of the HTTP request made inside a `try` block.
`error` = any exception raised there (connection failure,
`raise_for_status`, JSON decoding, `pd.to_numeric`); `ok hasKey payload` =
a parsed JSON response, `hasKey` recording whether the expected top-level
key (`'Time Series (Digital Currency Daily)'` resp. `'feed'`) is present,
`payload` the parsed rows when it is. -/
inductive ApiOutcome (α : Type) where
  | error : ApiOutcome α
  | ok : Bool → α → ApiOutcome α
deriving DecidableEq, Repr

/-- Environment of one historical-data request: the two MongoDB reads, the
API outcome, the raw CSV mirror content (`none` = file absent; the field
exists to state that `data_service` never reads it), and the clock. -/
structure HistEnv where
  latestProcessed : Option ProcRecord
  latestHistorical : Option HistRecord
  api : ApiOutcome (List Row)
  csvRaw : Option (List Row)
  now : ℚ
deriving DecidableEq, Repr

/-- `CryptoDataService._should_update_data`: absent processed record ⇒
update; else update iff `now - timestamp` strictly exceeds the interval
(default 24 hours) in seconds. -/
def should_update_data (latestProcessed : Option ProcRecord) (now : ℚ)
    (update_interval_hours : ℚ := 24) : Bool :=
  match latestProcessed with
  | none => true
  | some r => decide (now - r.timestamp > update_interval_hours * 3600)

/-- A cached news item as built by `get_crypto_news` (sentiment score and
label included). -/
structure NewsItem where
  title : String
  summary : String
  url : String
  source : String
  time_published : String
  sentiment : ℚ
  sentiment_label : String
deriving DecidableEq, Repr

/-- A document of the `news_data` collection as read back by
`get_latest_news`.  Both fields are optional: the `timestamp` key may be
missing or falsy (`latest_news.get('timestamp')`), and the code checks
`'news_items' in cached_news` explicitly. -/
structure NewsRecord where
  timestamp : Option ℚ
  news_items : Option (List NewsItem)
deriving DecidableEq, Repr

/-- `CryptoAnalysisService._should_update_news`: absent record ⇒ update;
record without a usable `timestamp` ⇒ update; else update iff the age
strictly exceeds the interval (default 60 minutes) in seconds. -/
def should_update_news (latestNews : Option NewsRecord) (now : ℚ)
    (update_interval_minutes : ℚ := 60) : Bool :=
  match latestNews with
  | none => true
  | some r =>
    match r.timestamp with
    | none => true
    | some t => decide (now - t > update_interval_minutes * 60)

/-- The per-item sentiment label of `get_crypto_news` line 102:
`'Positive' if sentiment > 0 else 'Negative' if sentiment < 0 else
'Neutral'`. -/
def sentiment_label_of (sentiment : ℚ) : String :=
  if sentiment > 0 then "Positive"
  else if sentiment < 0 then "Negative"
  else "Neutral"

/-- Mean of a list of scores (`total_sentiment / len(news_items)`). -/
def mean_sentiment (scores : List ℚ) : ℚ :=
  scores.sum / scores.length

/-- `CryptoAnalysisService._calculate_overall_sentiment`, applied to the
items' scores: empty batch ⇒ `"Neutral"`; otherwise bucket the mean at
`±0.2`. -/
def calculate_overall_sentiment (scores : List ℚ) : String :=
  if scores = [] then "Neutral"
  else
    let avg := mean_sentiment scores
    if avg > 1/5 then "Positive"
    else if avg < -(1/5) then "Negative"
    else "Neutral"

/-- A MongoDB payload document, restricted to the two fields the
`db_service` save methods touch: the `symbol` and `timestamp` keys
(`none` = key absent in the payload dict). -/
structure MongoDoc where
  symbol : Option String
  timestamp : Option ℚ
deriving DecidableEq, Repr

/-- `MongoDBService.save_historical_data`: sets `data['symbol'] = symbol`
and `data['timestamp'] = datetime.now()` before `insert_one`; the returned
document is what the store commits. -/
def save_historical_data (now : ℚ) (symbol : String) (data : MongoDoc) : MongoDoc :=
  { data with symbol := some symbol, timestamp := some now }

/-- `MongoDBService.save_processed_data`: identical stamping to
`save_historical_data`. -/
def save_processed_data (now : ℚ) (symbol : String) (data : MongoDoc) : MongoDoc :=
  { data with symbol := some symbol, timestamp := some now }

/-- `MongoDBService.save_news_data`: sets only `news_data['symbol'] =
symbol` before `insert_one` — no timestamp is stamped by the gateway. -/
def save_news_data (symbol : String) (news_data : MongoDoc) : MongoDoc :=
  { news_data with symbol := some symbol }

/-!  Indicator engine (`calculate_technical_indicators` and the `ta`
library calls it makes).  All indicators are pure functions of the close
column; warm-up cells are `none` exactly where pandas produces NaN
(`min_periods` = window throughout, `fillna=False` defaults). -/

/-- `ta.trend.SMAIndicator(close, window=w).sma_indicator()`:
`close.rolling(w, min_periods=w).mean()` — `none` for the first `w - 1`
indices, then the mean of the trailing window of `w` closes. -/
def sma_indicator (xs : List ℚ) (w : ℕ) : List (Option ℚ) :=
  (List.range xs.length).map fun i =>
    if i + 1 < w then none
    else some (((xs.drop (i + 1 - w)).take w).sum / (w : ℚ))

/-- The recursive part of pandas `ewm(adjust=False).mean()`:
`y_t = (1 - α) * y_(t-1) + α * x_t`. -/
def ewm_go (a : ℚ) (y : ℚ) : List ℚ → List ℚ
  | [] => []
  | x :: xs =>
    let y2 := (1 - a) * y + a * x
    y2 :: ewm_go a y2 xs

/-- pandas `ewm(adjust=False).mean()` on an all-valid series: `y_0 = x_0`,
then the exponential recursion. -/
def ewm_adjust_false (a : ℚ) : List ℚ → List ℚ
  | [] => []
  | x :: xs => x :: ewm_go a x xs

/-- Apply a `min_periods = n` mask to an all-valid series: entries at
indices `< n - 1` become `none` (fewer than `n` observations seen). -/
def mask_warmup (n : ℕ) (xs : List ℚ) : List (Option ℚ) :=
  List.zipWith (fun i x => if i + 1 < n then none else some x)
    (List.range xs.length) xs

/-- `ta.trend.ema` helper: `series.ewm(span=w, min_periods=w,
adjust=False).mean()`. -/
def ema_span (w : ℕ) (xs : List ℚ) : List (Option ℚ) :=
  mask_warmup w (ewm_adjust_false (2 / ((w : ℚ) + 1)) xs)

/-- Cellwise subtraction with NaN propagation. -/
def opt_sub : Option ℚ → Option ℚ → Option ℚ
  | some a, some b => some (a - b)
  | _, _ => none

/-- pandas `ewm(alpha=a, min_periods=n, adjust=False).mean()` on a series
whose leading entries may be NaN (the only NaN pattern arising here): a
NaN input yields a NaN output and leaves the state untouched; the
recursion starts at the first valid value; outputs stay NaN until `n`
valid observations have been seen. -/
def ewm_opt_go (a : ℚ) (n : ℕ) (st : Option ℚ) (cnt : ℕ) :
    List (Option ℚ) → List (Option ℚ)
  | [] => []
  | none :: xs => none :: ewm_opt_go a n st cnt xs
  | some x :: xs =>
    let y := match st with
      | none => x
      | some y0 => (1 - a) * y0 + a * x
    (if cnt + 1 < n then none else some y) :: ewm_opt_go a n (some y) (cnt + 1) xs

/-- Entry point for `ewm_opt_go`: no state, no observations yet. -/
def ewm_opt (a : ℚ) (n : ℕ) (xs : List (Option ℚ)) : List (Option ℚ) :=
  ewm_opt_go a n none 0 xs

/-- `ta.trend.MACD(close).macd()`: EMA(12) − EMA(26). -/
def macd_line (closes : List ℚ) : List (Option ℚ) :=
  List.zipWith opt_sub (ema_span 12 closes) (ema_span 26 closes)

/-- `ta.trend.MACD(close).macd_signal()`: EMA(9) of the MACD line
(`alpha = 2/10`), with `min_periods = 9` valid observations. -/
def macd_signal_line (closes : List ℚ) : List (Option ℚ) :=
  ewm_opt (2 / 10) 9 (macd_line closes)

/-- `ta.trend.MACD(close).macd_diff()`: MACD − signal (the histogram). -/
def macd_hist_line (closes : List ℚ) : List (Option ℚ) :=
  List.zipWith opt_sub (macd_line closes) (macd_signal_line closes)

/-- First differences of a series (`close.diff(1)` without its leading
NaN). -/
def deltas : List ℚ → List ℚ
  | [] => []
  | [_] => []
  | a :: b :: rest => (b - a) :: deltas (b :: rest)

/-- `diff.where(diff > 0, 0.0)` of the RSI computation; the leading NaN of
`diff` compares false and becomes `0`. -/
def up_moves (closes : List ℚ) : List ℚ :=
  match closes with
  | [] => []
  | _ :: _ => 0 :: (deltas closes).map (fun d => if d > 0 then d else 0)

/-- `-diff.where(diff < 0, 0.0)` of the RSI computation. -/
def down_moves (closes : List ℚ) : List ℚ :=
  match closes with
  | [] => []
  | _ :: _ => 0 :: (deltas closes).map (fun d => if d < 0 then -d else 0)

/-- `ta.momentum.RSIIndicator(close).rsi()` (window 14): Wilder smoothing
of up/down moves via `ewm(alpha=1/14, min_periods=14, adjust=False)`,
then `100 - 100 / (1 + rs)`, with RSI = 100 where the smoothed downs are
zero. -/
def rsi_list (closes : List ℚ) : List (Option ℚ) :=
  List.zipWith (fun u d =>
      match u, d with
      | some u, some d => some (if d = 0 then 100 else 100 - 100 / (1 + u / d))
      | _, _ => none)
    (mask_warmup 14 (ewm_adjust_false (1/14) (up_moves closes)))
    (mask_warmup 14 (ewm_adjust_false (1/14) (down_moves closes)))

/-- Rolling population variance (`rolling(w, min_periods=w).std(ddof=0)`
squared), used for the Bollinger bands. -/
def rolling_var0 (xs : List ℚ) (w : ℕ) : List (Option ℚ) :=
  (List.range xs.length).map fun i =>
    if i + 1 < w then none
    else
      let win := (xs.drop (i + 1 - w)).take w
      let m := win.sum / (w : ℚ)
      some ((win.map (fun x => (x - m) ^ 2)).sum / (w : ℚ))

/-- `ta.volatility.BollingerBands(close).bollinger_hband()`: 20-period
mean + 2 standard deviations.  The real-valued square root is idealised
by `Rat.sqrt`; no verified property below depends on a band value. -/
def bb_upper_line (closes : List ℚ) : List (Option ℚ) :=
  List.zipWith (fun m v =>
      match m, v with
      | some m, some v => some (m + 2 * Rat.sqrt v)
      | _, _ => none)
    (sma_indicator closes 20) (rolling_var0 closes 20)

/-- `bollinger_mavg()`: the 20-period moving average itself. -/
def bb_middle_line (closes : List ℚ) : List (Option ℚ) :=
  sma_indicator closes 20

/-- `bollinger_lband()`: 20-period mean − 2 standard deviations. -/
def bb_lower_line (closes : List ℚ) : List (Option ℚ) :=
  List.zipWith (fun m v =>
      match m, v with
      | some m, some v => some (m - 2 * Rat.sqrt v)
      | _, _ => none)
    (sma_indicator closes 20) (rolling_var0 closes 20)

/-- `CryptoDataService.calculate_technical_indicators`, as the pure value
it returns: the input rows with the ten indicator columns appended (the
CSV/MongoDB saves it also performs are effects on stores this model keeps
outside the returned value; the columns are added to the frame in place,
so the return value is enriched even when a save fails).  On an empty
frame the `'close' in df.columns` guard skips enrichment and the empty
frame is returned unchanged, which coincides with the empty output here. -/
def calculate_technical_indicators (rows : List Row) : List ERow :=
  let closes := rows.map Row.close
  let rsi := rsi_list closes
  let macd := macd_line closes
  let sig := macd_signal_line closes
  let hist := macd_hist_line closes
  let m20 := sma_indicator closes 20
  let m50 := sma_indicator closes 50
  let m200 := sma_indicator closes 200
  let bU := bb_upper_line closes
  let bM := bb_middle_line closes
  let bL := bb_lower_line closes
  (List.range rows.length).map fun i =>
    let r := rows.getD i default
    { open_ := r.open_, high := r.high, low := r.low, close := r.close,
      volume := r.volume,
      rsi := rsi.getD i none, macd := macd.getD i none,
      macd_signal_col := sig.getD i none, macd_hist := hist.getD i none,
      ma20 := m20.getD i none, ma50 := m50.getD i none,
      ma200 := m200.getD i none,
      bb_upper := bU.getD i none, bb_middle := bM.getD i none,
      bb_lower := bL.getD i none }

/-!  The fetch / cache pipeline of `CryptoDataService` and the news path of
`CryptoAnalysisService`.  A returned `none` (resp. `[]`, `{}`) is the
"absent result" the Python code signals with `None`, `[]`, `{}`. -/

/-- Body of the `try` block of `fetch_and_save_historical_data` together
with its `except` handler: an exception anywhere in the block falls back
to `get_latest_historical_data` (and to `None` when that is absent); a
parsed response missing the `'Time Series (Digital Currency Daily)'` key
is logged and returns `None` directly — no fallback; otherwise the parsed,
sorted frame is saved (an effect outside this value) and returned. -/
def fetch_try_block (env : HistEnv) : Option (List Row) :=
  match env.api with
  | ApiOutcome.error => env.latestHistorical.map HistRecord.data
  | ApiOutcome.ok hasKey series => if hasKey then some series else none

/-- `CryptoDataService.fetch_and_save_historical_data`: when no force and
the processed record is fresh, return the cached raw frame if the raw
collection has one (falling through to the live fetch when it does not);
otherwise run the fetch body. -/
def fetch_and_save_historical_data (env : HistEnv)
    (force_update : Bool := false) : Option (List Row) :=
  if !force_update && !should_update_data env.latestProcessed env.now then
    match env.latestHistorical with
    | some r => some r.data
    | none => fetch_try_block env
  else
    fetch_try_block env

/-- `CryptoDataService.get_historical_data`: serve the cached processed
frame when present and fresh; otherwise fetch raw data and enrich it
(`None` propagates when the fetch yields nothing). -/
def get_historical_data (env : HistEnv)
    (force_update : Bool := false) : Option (List ERow) :=
  if !force_update &&
      (match env.latestProcessed with
       | some _ => !should_update_data env.latestProcessed env.now
       | none => false) then
    env.latestProcessed.map ProcRecord.data
  else
    (fetch_and_save_historical_data env force_update).map
      calculate_technical_indicators

/-- The market summary dict of `get_market_summary` (field `rsi` is the
possibly-NaN last RSI cell). -/
structure Summary where
  price : ℚ
  price_change_24h : ℚ
  rsi : Option ℚ
  macd_signal : String
  ma_signal : String
  volume_24h : ℚ
  timestamp : ℚ
deriving DecidableEq, Repr

/-- `df['MACD_Hist'].iloc[-1] > 0` with pandas semantics: a NaN cell
compares false. -/
def hist_positive : Option ℚ → Bool
  | some v => decide (v > 0)
  | none => false

/-- `current_price > df['MA50'].iloc[-1]` with pandas semantics: a NaN
cell compares false. -/
def close_above (close : ℚ) : Option ℚ → Bool
  | some m => decide (close > m)
  | none => false

/-- The summary dict built by `get_market_summary` from the last two rows
(`prev` = `iloc[-2]`, `last` = `iloc[-1]`) at clock time `now`. -/
def build_summary (prev last : ERow) (now : ℚ) : Summary :=
  { price := last.close,
    price_change_24h := (last.close - prev.close) / prev.close * 100,
    rsi := last.rsi,
    macd_signal := if hist_positive last.macd_hist then "bullish" else "bearish",
    ma_signal := if close_above last.close last.ma50 then "bullish" else "bearish",
    volume_24h := last.volume,
    timestamp := now }

/-- The body of `get_market_summary` after `get_historical_data`: `None`
frame ⇒ `{}`; the `iloc[-1]` / `iloc[-2]` accesses raise on a frame of
fewer than two rows and the surrounding `except` turns that into `{}`;
otherwise the summary of the last two rows. -/
def summarize_df (odf : Option (List ERow)) (now : ℚ) : Option Summary :=
  match odf with
  | none => none
  | some rows =>
    match rows.dropLast.getLast?, rows.getLast? with
    | some prev, some last => some (build_summary prev last now)
    | _, _ => none

/-- `CryptoDataService.get_market_summary`: `none` models the empty dict
`{}`. -/
def get_market_summary (env : HistEnv)
    (force_update : Bool := false) : Option Summary :=
  summarize_df (get_historical_data env force_update) env.now

/-- One entry of the news API's `'feed'` array (fields used by
`get_crypto_news`). -/
structure RawFeedItem where
  title : String
  summary : String
  url : String
  source : String
  time_published : String
deriving DecidableEq, Repr

/-- Environment of one news request: the MongoDB read, the API outcome
(`ok hasFeed items` = parsed JSON, `hasFeed` = the `'feed'` key present),
the news CSV mirror content (`none` = file absent), and the clock. -/
structure NewsEnv where
  latestNews : Option NewsRecord
  api : ApiOutcome (List RawFeedItem)
  csvNews : Option (List NewsItem)
  now : ℚ
deriving DecidableEq, Repr

/-- One news item as assembled in the fetch loop of `get_crypto_news`;
`polarity` abstracts the external `TextBlob(...).sentiment.polarity`
scorer applied to the concatenated title and summary. -/
def mk_news_item (polarity : String → ℚ) (item : RawFeedItem) : NewsItem :=
  let s := polarity (item.title ++ " " ++ item.summary)
  { title := item.title, summary := item.summary, url := item.url,
    source := item.source, time_published := item.time_published,
    sentiment := s, sentiment_label := sentiment_label_of s }

/-- The `except` handler of `get_crypto_news`: first the MongoDB cache
(usable only when the record exists and has a `'news_items'` key), then
the CSV mirror if the file exists, else `[]`. -/
def news_cache_fallback (env : NewsEnv) : List NewsItem :=
  match env.latestNews with
  | some rec =>
    match rec.news_items with
    | some items => items
    | none =>
      match env.csvNews with
      | some items => items
      | none => []
  | none =>
    match env.csvNews with
    | some items => items
    | none => []

/-- The fetch part of `get_crypto_news` with its `except` handler: an
exception (network/HTTP/JSON) falls back to the cache tiers; a parsed
response without a `'feed'` key returns `[]`; otherwise the scored items
are saved (effects outside this value) and returned. -/
def fetch_news_try_block (polarity : String → ℚ) (env : NewsEnv) : List NewsItem :=
  match env.api with
  | ApiOutcome.error => news_cache_fallback env
  | ApiOutcome.ok hasFeed feed =>
    if hasFeed then feed.map (mk_news_item polarity) else []

/-- `CryptoAnalysisService.get_crypto_news`: serve the cached batch when
no force, the record is fresh and carries a `'news_items'` key; otherwise
fetch (with the fallback discipline of `fetch_news_try_block`). -/
def get_crypto_news (polarity : String → ℚ) (env : NewsEnv)
    (force_update : Bool := false) : List NewsItem :=
  if !force_update && !should_update_news env.latestNews env.now then
    match env.latestNews with
    | some rec =>
      match rec.news_items with
      | some items => items
      | none => fetch_news_try_block polarity env
    | none => fetch_news_try_block polarity env
  else
    fetch_news_try_block polarity env

/-!  Helper lemmas shared by the claim theorems. -/

theorem calculate_technical_indicators_length (rows : List Row) :
    (calculate_technical_indicators rows).length = rows.length := by
  simp [calculate_technical_indicators]

theorem summarize_df_of_length_lt_two (rows : List ERow) (now : ℚ)
    (h : rows.length < 2) : summarize_df (some rows) now = none := by
  rcases rows with _ | ⟨a, _ | ⟨b, rest⟩⟩
  · rfl
  · rfl
  · simp at h; omega

theorem summarize_df_eq_build (rows : List ERow) (now : ℚ)
    (h : 2 ≤ rows.length) :
    ∃ p l, rows.dropLast.getLast? = some p ∧ rows.getLast? = some l ∧
      summarize_df (some rows) now = some (build_summary p l now) := by
  have hne : rows ≠ [] := by
    intro hnil; subst hnil; simp at h
  have hdne : rows.dropLast ≠ [] := by
    intro hnil
    have := congrArg List.length hnil
    simp [List.length_dropLast] at this
    omega
  obtain ⟨p, hp⟩ := Option.isSome_iff_exists.mp (List.getLast?_isSome.mpr hdne)
  obtain ⟨l, hl⟩ := Option.isSome_iff_exists.mp (List.getLast?_isSome.mpr hne)
  exact ⟨p, l, hp, hl, by simp [summarize_df, hp, hl]⟩

/-!  Claim theorems. -/

/-- C3 (amended): a save of historical-raw or historical-processed data
stamps the payload with both the symbol and a capture timestamp before
committing; the news save stamps only the symbol and leaves whatever
timestamp the caller put in the payload untouched. -/
theorem c3_gateway_stamping (now : ℚ) (symbol : String) (d : MongoDoc) :
    ((save_historical_data now symbol d).symbol = some symbol
      ∧ (save_historical_data now symbol d).timestamp = some now)
    ∧ ((save_processed_data now symbol d).symbol = some symbol
      ∧ (save_processed_data now symbol d).timestamp = some now)
    ∧ (save_news_data symbol d).symbol = some symbol
    ∧ (save_news_data symbol d).timestamp = d.timestamp :=
  ⟨⟨rfl, rfl⟩, ⟨rfl, rfl⟩, rfl, rfl⟩

/-- C3 counterexample: committing a news payload that carries no timestamp
key yields a stored document still without a capture timestamp, so the
news save does not stamp one. -/
theorem c3_news_save_unstamped_cex :
    (save_news_data "BTC" ⟨none, none⟩).timestamp = none := rfl

/-- C4: both staleness checks return true when no cached record exists,
and otherwise true iff the record's age strictly exceeds the max age; the
default max ages are 24 hours for market data and 60 minutes for news. -/
theorem c4_staleness_boundary :
    (∀ (now i : ℚ), should_update_data none now i = true)
    ∧ (∀ (now i : ℚ) (r : ProcRecord),
        should_update_data (some r) now i = true ↔ now - r.timestamp > i * 3600)
    ∧ (∀ (now : ℚ) (p : Option ProcRecord),
        should_update_data p now = should_update_data p now 24)
    ∧ (∀ (now i : ℚ), should_update_news none now i = true)
    ∧ (∀ (now i : ℚ) (r : NewsRecord) (t : ℚ), r.timestamp = some t →
        (should_update_news (some r) now i = true ↔ now - t > i * 60))
    ∧ (∀ (now : ℚ) (n : Option NewsRecord),
        should_update_news n now = should_update_news n now 60) := by
  refine ⟨fun _ _ => rfl, fun now i r => ?_, fun _ _ => rfl, fun _ _ => rfl,
    fun now i r t ht => ?_, fun _ _ => rfl⟩
  · simp [should_update_data]
  · simp [should_update_news, ht]

/-- C4 witness: a news record captured at time 0 is stale at time 3601
(one second past the 60-minute default). -/
theorem c4_staleness_boundary_witness :
    should_update_news (some ⟨some 0, none⟩) 3601 = true :=
  (c4_staleness_boundary.2.2.2.2.1 3601 60 ⟨some 0, none⟩ 0 rfl).mpr (by norm_num)

/-- C10: a cached news record that exists but carries no capture timestamp
is treated as stale, so a refetch is attempted. -/
theorem c10_no_timestamp_is_stale (r : NewsRecord) (now i : ℚ)
    (h : r.timestamp = none) : should_update_news (some r) now i = true := by
  simp [should_update_news, h]

/-- C10 witness: at the default max age, a record without a timestamp is
stale. -/
theorem c10_no_timestamp_is_stale_witness :
    should_update_news (some ⟨none, some []⟩) 0 = true :=
  c10_no_timestamp_is_stale ⟨none, some []⟩ 0 60 rfl

/-- C5: each item's label buckets its score at threshold 0, the aggregate
buckets the mean at ±0.2, and for scores [0.3, 0.1, -0.05] the aggregate
is Neutral although the first item alone is Positive. -/
theorem c5_sentiment_asymmetry :
    (∀ s : ℚ, sentiment_label_of s =
        if s > 0 then "Positive" else if s < 0 then "Negative" else "Neutral")
    ∧ (∀ scores : List ℚ, calculate_overall_sentiment scores =
        if scores = [] then "Neutral"
        else if mean_sentiment scores > 1/5 then "Positive"
        else if mean_sentiment scores < -(1/5) then "Negative"
        else "Neutral")
    ∧ (∀ (p : String → ℚ) (item : RawFeedItem),
        (mk_news_item p item).sentiment_label =
          sentiment_label_of (mk_news_item p item).sentiment)
    ∧ calculate_overall_sentiment [3/10, 1/10, -(1/20)] = "Neutral"
    ∧ sentiment_label_of (3/10) = "Positive" :=
  ⟨fun _ => rfl, fun _ => rfl, fun _ _ => rfl,
    by norm_num [calculate_overall_sentiment, mean_sentiment],
    by norm_num [sentiment_label_of]⟩

/-- C6: an absent frame or one with fewer than two rows yields the empty
market summary — in particular, at the pipeline level, a symbol whose
fresh cached processed record holds a single row returns empty. -/
theorem c6_short_frame_empty_summary (now : ℚ) :
    summarize_df none now = none
    ∧ (∀ rows : List ERow, rows.length < 2 → summarize_df (some rows) now = none)
    ∧ (∀ (env : HistEnv) (r : ProcRecord),
        env.latestProcessed = some r → r.data.length < 2 →
        should_update_data (some r) env.now = false →
        get_market_summary env = none) := by
  refine ⟨rfl, fun rows h => summarize_df_of_length_lt_two rows now h, ?_⟩
  intro env r hp hlen hfresh
  have h1 : get_historical_data env = some r.data := by
    simp [get_historical_data, hp, hfresh]
  rw [get_market_summary, h1]
  exact summarize_df_of_length_lt_two r.data env.now hlen

/-- C6 witness: a fresh single-row cached record gives the empty summary
without error. -/
theorem c6_short_frame_empty_summary_witness :
    get_market_summary
      ⟨some ⟨[default], 0⟩, none, ApiOutcome.error, none, 0⟩ = none :=
  (c6_short_frame_empty_summary 0).2.2
    ⟨some ⟨[default], 0⟩, none, ApiOutcome.error, none, 0⟩
    ⟨[default], 0⟩ rfl (by decide) (by norm_num [should_update_data])

/-- Concrete rows and environments for counterexamples and witnesses. -/
def row_a : Row := ⟨1, 2, 0, 1, 5⟩

def row_b : Row := ⟨1, 3, 0, 2, 6⟩

/-- Environment of the C1 scenario: stale cache (no processed record), a
cached raw record present, and an API response that parses but lacks the
time-series key. -/
def env_c1 : HistEnv :=
  { latestProcessed := none,
    latestHistorical := some ⟨[row_a, row_b], 0⟩,
    api := ApiOutcome.ok false [],
    csvRaw := none,
    now := 0 }

/-- C1 counterexample: with a cached record present and a fetch whose
response parses but lacks the `'Time Series (Digital Currency Daily)'`
key, the call returns an absent result — not the cached series the claim
requires. -/
theorem c1_missing_key_returns_absent_cex :
    fetch_and_save_historical_data env_c1 = none
    ∧ env_c1.latestHistorical = some ⟨[row_a, row_b], 0⟩ := ⟨rfl, rfl⟩

/-- C1 (amended): when a fetch is attempted on a stale cache, a parsed
response lacking the time-series key is logged and returns an absent
result directly, with no fallback to the cached record; only an exception
raised during the fetch (network/HTTP error) falls back to the most
recent cached record. -/
theorem c1_missing_key_vs_network_error (env : HistEnv) (s : List Row)
    (hstale : should_update_data env.latestProcessed env.now = true) :
    (env.api = ApiOutcome.ok false s → fetch_and_save_historical_data env = none)
    ∧ (env.api = ApiOutcome.error →
        fetch_and_save_historical_data env = env.latestHistorical.map HistRecord.data) := by
  constructor <;> intro hapi <;>
    simp [fetch_and_save_historical_data, hstale, fetch_try_block, hapi]

/-- C1 witness: the amended behaviour at the concrete C1 environment. -/
theorem c1_missing_key_vs_network_error_witness :
    fetch_and_save_historical_data env_c1 = none :=
  (c1_missing_key_vs_network_error env_c1 [] rfl).1 rfl

/-- A news item for the C2 scenario. -/
def news_item_w : NewsItem :=
  ⟨"title", "summary", "url", "src", "20240101", 1/2, "Positive"⟩

/-- News environment of the C2 scenario: document-store read fails (the
getter returns no record), the API raises, the CSV mirror exists. -/
def nenv_c2 : NewsEnv := ⟨none, ApiOutcome.error, some [news_item_w], 0⟩

/-- Historical environment of the C2 scenario: both document-store reads
fail, the API raises, and the raw CSV mirror exists. -/
def henv_c2 : HistEnv := ⟨none, none, ApiOutcome.error, some [row_a, row_b], 0⟩

/-- C2 counterexample: in a total outage with the document store failing,
the historical fetch returns an absent result and the market summary is
empty even though the raw CSV mirror holds data — the historical path
never reads the flat-file mirror, refuting the claim for the
historical-data kind. -/
theorem c2_historical_mirror_ignored_cex :
    fetch_and_save_historical_data henv_c2 = none
    ∧ get_market_summary henv_c2 = none
    ∧ henv_c2.csvRaw = some [row_a, row_b] := ⟨rfl, rfl, rfl⟩

/-- C2 (amended): only the news pipeline serves the flat-file mirror when
the document-store read path fails during a fetch-with-fallback; the
historical pipeline consults only the document store and yields an absent
result when both the API and the store fail, regardless of the mirror's
content. -/
theorem c2_mirror_fallback_news_only (polarity : String → ℚ)
    (nenv : NewsEnv) (items : List NewsItem) (henv : HistEnv)
    (hnews_db : nenv.latestNews = none)
    (hnews_api : nenv.api = ApiOutcome.error)
    (hnews_csv : nenv.csvNews = some items)
    (hhist_proc : henv.latestProcessed = none)
    (hhist_raw : henv.latestHistorical = none)
    (hhist_api : henv.api = ApiOutcome.error) :
    get_crypto_news polarity nenv = items
    ∧ fetch_and_save_historical_data henv = none
    ∧ get_market_summary henv = none := by
  refine ⟨?_, ?_, ?_⟩
  · simp [get_crypto_news, should_update_news, hnews_db, fetch_news_try_block,
      hnews_api, news_cache_fallback, hnews_csv]
  · simp [fetch_and_save_historical_data, should_update_data, hhist_proc,
      fetch_try_block, hhist_api, hhist_raw]
  · simp [get_market_summary, get_historical_data, hhist_proc,
      fetch_and_save_historical_data, should_update_data, fetch_try_block,
      hhist_api, hhist_raw, summarize_df]

/-- C2 witness: the amended behaviour at the concrete C2 environments. -/
theorem c2_mirror_fallback_news_only_witness :
    get_crypto_news (fun _ => 0) nenv_c2 = [news_item_w] :=
  (c2_mirror_fallback_news_only (fun _ => 0) nenv_c2 [news_item_w] henv_c2
    rfl rfl rfl rfl rfl rfl).1

/-- C8: for any close series and window `w ≥ 1` the moving-average column
has one cell per input row, undefined exactly at indices `< w - 1` and
defined from index `w - 1` on (hence MA200 is undefined for 0..198 and
defined from 199); the engine's MA200 column is exactly this series; the
2-period toy case over closes [100, 102, 101, 105, 103] equals
[undefined, 101, 101.5, 103, 104]. -/
theorem c8_ma_warmup :
    (∀ (xs : List ℚ) (w : ℕ), 1 ≤ w →
      (sma_indicator xs w).length = xs.length
      ∧ ∀ i (h : i < (sma_indicator xs w).length),
          (((sma_indicator xs w).get ⟨i, h⟩).isSome = true ↔ w - 1 ≤ i))
    ∧ (∀ rows : List Row,
        (calculate_technical_indicators rows).map ERow.ma200 =
          sma_indicator (rows.map Row.close) 200)
    ∧ sma_indicator [100, 102, 101, 105, 103] 2 =
        [none, some 101, some (203/2), some 103, some 104] := by
  refine ⟨fun xs w hw => ⟨by simp [sma_indicator], ?_⟩, ?_, ?_⟩
  · intro i h
    simp only [sma_indicator, List.get_eq_getElem, List.getElem_map,
      List.getElem_range]
    by_cases hc : i + 1 < w
    · simp [hc]
    · simp [hc]
      omega
  · intro rows
    apply List.ext_getElem
    · simp [calculate_technical_indicators, sma_indicator]
    · intro i h1 h2
      simp only [calculate_technical_indicators, List.getElem_map,
        List.getElem_range, List.length_map, List.length_range]
      rw [List.getD_eq_getElem]
  · norm_num [sma_indicator, List.range_succ]

/-- C8 witness: the toy series at window 2 has a defined cell at index 1
(the first index past the warm-up). -/
theorem c8_ma_warmup_witness :
    ((sma_indicator [100, 102, 101, 105, 103] 2).get
      ⟨1, by simp [sma_indicator]⟩).isSome = true :=
  ((c8_ma_warmup.1 [100, 102, 101, 105, 103] 2 (by norm_num)).2 1
    (by simp [sma_indicator])).mpr (by norm_num)

/-- C9: for a frame of at least two rows the summary exists; its
macd_signal is bullish iff the last MACD histogram cell is positive and
bearish otherwise, its ma_signal is bullish iff the last close exceeds
the last MA50 cell and bearish otherwise, there is no third state, and
both signals depend only on the most recent row. -/
theorem c9_signal_derivation (rows : List ERow) (now : ℚ)
    (h2 : 2 ≤ rows.length) :
    ∃ (s : Summary) (last : ERow), summarize_df (some rows) now = some s
      ∧ rows.getLast? = some last
      ∧ s.macd_signal =
          (if hist_positive last.macd_hist then "bullish" else "bearish")
      ∧ s.ma_signal =
          (if close_above last.close last.ma50 then "bullish" else "bearish")
      ∧ (s.macd_signal = "bullish" ∨ s.macd_signal = "bearish")
      ∧ (s.ma_signal = "bullish" ∨ s.ma_signal = "bearish")
      ∧ (∀ rows2 : List ERow, 2 ≤ rows2.length → rows2.getLast? = some last →
          ∃ s2 : Summary, summarize_df (some rows2) now = some s2
            ∧ s2.macd_signal = s.macd_signal ∧ s2.ma_signal = s.ma_signal) := by
  obtain ⟨p, l, hp, hl, heq⟩ := summarize_df_eq_build rows now h2
  refine ⟨build_summary p l now, l, heq, hl, rfl, rfl, ?_, ?_, ?_⟩
  · by_cases hb : hist_positive l.macd_hist <;> simp [build_summary, hb]
  · by_cases hb : close_above l.close l.ma50 <;> simp [build_summary, hb]
  · intro rows2 h2b hl2
    obtain ⟨p2, l2, hp2, hl2b, heq2⟩ := summarize_df_eq_build rows2 now h2b
    have hll : l2 = l := by
      rw [hl2b] at hl2
      exact Option.some.inj hl2
    subst hll
    exact ⟨build_summary p2 l2 now, heq2, rfl, rfl⟩

/-- C9 witness: a concrete two-row frame yields a summary whose signals
take one of the two states. -/
theorem c9_signal_derivation_witness :
    ∃ s : Summary, summarize_df (some ([default, default] : List ERow)) 0 = some s
      ∧ (s.macd_signal = "bullish" ∨ s.macd_signal = "bearish") := by
  obtain ⟨s, last, h1, _, _, _, h5, _, _⟩ :=
    c9_signal_derivation [default, default] 0 (by decide)
  exact ⟨s, h1, h5⟩

/-- C7: with the processed cache stale and a total external-API outage, a
symbol whose raw collection holds a cached record of at least two rows
still yields the market summary computed from that cached record's
enriched series — a nonempty result, not the empty dict. -/
theorem c7_outage_serves_cached (env : HistEnv) (hr : HistRecord)
    (houtage : env.api = ApiOutcome.error)
    (hstale : should_update_data env.latestProcessed env.now = true)
    (hcache : env.latestHistorical = some hr)
    (hlen : 2 ≤ hr.data.length) :
    get_market_summary env =
      summarize_df (some (calculate_technical_indicators hr.data)) env.now
    ∧ get_market_summary env ≠ none := by
  have h0 : fetch_and_save_historical_data env = some hr.data := by
    simp [fetch_and_save_historical_data, hstale, fetch_try_block, houtage, hcache]
  have h1 : get_historical_data env =
      some (calculate_technical_indicators hr.data) := by
    rcases henv : env.latestProcessed with _ | pr
    · simp [get_historical_data, henv, h0]
    · rw [henv] at hstale
      simp [get_historical_data, henv, hstale, h0]
  have h2 : get_market_summary env =
      summarize_df (some (calculate_technical_indicators hr.data)) env.now := by
    rw [get_market_summary, h1]
  have hlen2 : 2 ≤ (calculate_technical_indicators hr.data).length := by
    rwa [calculate_technical_indicators_length]
  obtain ⟨p, l, hp, hl, heq⟩ :=
    summarize_df_eq_build (calculate_technical_indicators hr.data) env.now hlen2
  refine ⟨h2, ?_⟩
  rw [h2, heq]
  simp

/-- The cached raw record of the C7 scenario. -/
def hrec_c7 : HistRecord := ⟨[row_a, row_b], 0⟩

/-- Environment of the C7 scenario: stale processed cache, cached raw
record present, total API outage. -/
def env_c7 : HistEnv := ⟨none, some hrec_c7, ApiOutcome.error, none, 0⟩

/-- C7 witness: the concrete outage scenario yields a nonempty summary. -/
theorem c7_outage_serves_cached_witness :
    get_market_summary env_c7 ≠ none :=
  (c7_outage_serves_cached env_c7 hrec_c7 rfl rfl rfl (by decide)).2
